import Mathlib

/-!
Verification of the PDDIKTI REST API facade (`app.py`).

The program is a Flask application whose handlers call an external
upstream client (`pddiktipy`), reshape the result and return a JSON
envelope.  We embed the handler bodies shallowly:

* `Val` models Python/JSON values (`None`, `bool`, `int`, `str`,
  `list`, `dict` as an association list);
* `truthy` models Python truthiness; `pyLen`, `pyGetD` model `len(v)`
  and `v.get(k, d)` including the `TypeError` / `AttributeError` they
  raise on unsupported receivers (an exception is an `Except.error`
  carrying the message string);
* `Response` models the JSON envelope produced by
  `create_error_response` / `create_success_response` together with the
  HTTP status code (`jsonify` alone means status 200);
* a handler is a function of the parsed request parameters and a
  `Client` record (one field per upstream method, each returning
  `Except String Val`: `error` = the call raised, `ok` = its value);
  the result is the `Response` paired with the ordered list of names of
  the upstream methods actually invoked, so that "no upstream call is
  made" is expressible;
* the monad `M` threads the call log and short-circuits on a raised
  exception; `runHandler` is the `try/except` wrapper every route body
  has, turning an escaped exception `e` into
  `create_error_response ("Internal server error: " ++ e) 500`.
-/

/-- Python/JSON values as handled by the handlers. -/
inductive Val : Type where
  | none : Val
  | bool : Bool → Val
  | int : Int → Val
  | str : String → Val
  | list : List Val → Val
  | dict : List (String × Val) → Val
deriving Repr

/-- Python type name, used in the messages of raised `TypeError`s. -/
def typeName : Val → String
  | Val.none => "NoneType"
  | Val.bool _ => "bool"
  | Val.int _ => "int"
  | Val.str _ => "str"
  | Val.list _ => "list"
  | Val.dict _ => "dict"

/-- Python truthiness (`bool(v)`). -/
def truthy : Val → Bool
  | Val.none => false
  | Val.bool b => b
  | Val.int n => !(n == 0)
  | Val.str s => !(s == "")
  | Val.list xs => !xs.isEmpty
  | Val.dict kvs => !kvs.isEmpty

/-- Python `isinstance(v, dict)`. -/
def isDict : Val → Bool
  | Val.dict _ => true
  | _ => false

/-- Python `isinstance(v, list)`. -/
def isList : Val → Bool
  | Val.list _ => true
  | _ => false

/-- Length of a list value (only used under an `isinstance(v, list)` guard). -/
def listLen : Val → Nat
  | Val.list xs => xs.length
  | _ => 0

/-- Python `len(v)`: defined on `str`, `list`, `dict`; raises `TypeError`
on other receivers. -/
def pyLen : Val → Except String Nat
  | Val.str s => Except.ok s.length
  | Val.list xs => Except.ok xs.length
  | Val.dict kvs => Except.ok kvs.length
  | v => Except.error ("object of type \x27" ++ typeName v ++ "\x27 has no len()")

/-- Python `v.get(k, d)`: defined on dicts; raises `AttributeError`
on other receivers. -/
def pyGetD (v : Val) (k : String) (d : Val) : Except String Val :=
  match v with
  | Val.dict kvs =>
      Except.ok (match kvs.lookup k with
        | Option.some x => x
        | Option.none => d)
  | _ => Except.error ("\x27" ++ typeName v ++ "\x27 object has no attribute \x27get\x27")

/-- Python `v.get(k)` (default `None`). -/
def pyGet (v : Val) (k : String) : Except String Val :=
  pyGetD v k Val.none

/-- Total variant of `v.get(k)` used where an `isinstance(v, dict)` guard
precedes the access in the source (so no exception is possible). -/
def dGet : Val → String → Val
  | Val.dict kvs, k =>
      (match kvs.lookup k with
        | Option.some x => x
        | Option.none => Val.none)
  | _, _ => Val.none

/-- Whether a value is a dict containing key `k`. -/
def hasKey : Val → String → Bool
  | Val.dict kvs, k => (kvs.lookup k).isSome
  | _, _ => false

/-- Python `s.strip()`: remove leading and trailing whitespace. -/
def pyStrip (s : String) : String :=
  String.mk (((s.data.dropWhile Char.isWhitespace).reverse.dropWhile Char.isWhitespace).reverse)

/-- The JSON envelope returned by a handler, together with the HTTP
status code of the response. -/
structure Response : Type where
  success : Bool
  status : Nat
  message : Option String
  error : Option String
  data : Val
deriving Repr

/-- Model of `create_error_response(message, status_code)` from `app.py`
(the Python default for `status_code` is 400; call sites below pass it
explicitly). -/
def create_error_response (message : String) (status_code : Nat) : Response :=
  { success := false, status := status_code, message := Option.none,
    error := Option.some message, data := Val.none }

/-- Model of `create_success_response(data, message)` from `app.py`; `jsonify`
without an explicit code responds with HTTP 200. -/
def create_success_response (data : Val) (message : String) : Response :=
  { success := true, status := 200, message := Option.some message,
    error := Option.none, data := data }

/-- The text of the 500 envelope built in every `except` block:
`f"Internal server error: {str(e)}"`. -/
def internalServerError (e : String) : String :=
  "Internal server error: " ++ e

/-- Handler-body monad: threads the ordered log of upstream method
names invoked so far, and short-circuits on a raised exception
(`Except.error` = a Python exception with its message). -/
def M (α : Type) : Type :=
  List String → Except String α × List String

/-- Return a pure value, no upstream call. -/
def M.pure {α : Type} (a : α) : M α :=
  fun log => (Except.ok a, log)

/-- Sequence two computations; an exception in the first aborts the rest. -/
def M.bind {α β : Type} (x : M α) (f : α → M β) : M β :=
  fun log =>
    match x log with
    | (Except.ok a, log2) => f a log2
    | (Except.error e, log2) => (Except.error e, log2)

/-- Run one upstream method: record its name in the call log, and
return its result (value or raised exception). -/
def call (name : String) (r : Except String Val) : M Val :=
  fun log => (r, log ++ [name])

/-- Lift a pure fallible step (no upstream call) into the monad. -/
def liftE {α : Type} (r : Except String α) : M α :=
  fun log => (r, log)

/-- The `try: ... except Exception as e:` wrapper shared by every route:
run the body on an empty call log; an escaped exception becomes the 500
envelope with the exception text. -/
def runHandler (m : M Response) : Response × List String :=
  match m [] with
  | (Except.ok r, log) => (r, log)
  | (Except.error e, log) => (create_error_response (internalServerError e) 500, log)

/-- The upstream `pddiktipy` client: one field per method used by
`app.py`, with the same argument shapes.  Each result is
`Except String Val`: `error e` models the call raising an exception
with text `e`, `ok v` models it returning the value `v`. -/
structure Client : Type where
  search_pt : String → Except String Val
  get_detail_pt : String → Except String Val
  get_prodi_pt : String → String → Except String Val
  get_logo_pt : String → Except String Val
  get_jumlah_mahasiswa_pt : String → Except String Val
  get_jumlah_dosen_pt : String → Except String Val
  get_jumlah_prodi_pt : String → Except String Val
  get_rasio_pt : String → Except String Val
  get_graduation_rate_pt : String → Except String Val
  get_cost_range_pt : String → Except String Val
  search_mahasiswa : String → Except String Val
  get_detail_mhs : String → Except String Val
  search_dosen : String → Except String Val
  get_dosen_profile : String → Except String Val
  get_dosen_penelitian : String → Except String Val
  get_dosen_pengabdian : String → Except String Val
  get_dosen_karya : String → Except String Val
  get_dosen_paten : String → Except String Val
  search_prodi : String → Except String Val
  get_detail_prodi : String → Except String Val
  get_desc_prodi : String → Except String Val
  search_all : String → Except String Val
  get_dosen_count_active : Except String Val
  get_mahasiswa_count_active : Except String Val
  get_prodi_count : Except String Val
  get_pt_count : Except String Val
  get_data_pt_bentuk : Except String Val
  get_data_pt_akreditasi : Except String Val
  get_data_pt_provinsi : Except String Val
  get_data_pt_kelompok_pembina : Except String Val
  get_data_mahasiswa_bidang : Except String Val
  get_data_mahasiswa_jenis_kelamin : Except String Val
  get_data_mahasiswa_jenjang : Except String Val
  get_data_mahasiswa_status : Except String Val
  get_data_dosen_keaktifan : Except String Val
  get_data_dosen_bidang : Except String Val
  get_data_dosen_jenis_kelamin : Except String Val
  get_data_dosen_jenjang : Except String Val
  get_data_prodi_jenjang : Except String Val
  get_data_prodi_akreditasi : Except String Val
  get_data_prodi_bidang_ilmu : Except String Val
  get_data_prodi_kelompok_pembina : Except String Val

/-- A client all of whose methods behave identically (for concrete
instantiations in witnesses and counterexamples). -/
def constClient (r : Except String Val) : Client :=
  { search_pt := fun _ => r, get_detail_pt := fun _ => r,
    get_prodi_pt := fun _ _ => r, get_logo_pt := fun _ => r,
    get_jumlah_mahasiswa_pt := fun _ => r, get_jumlah_dosen_pt := fun _ => r,
    get_jumlah_prodi_pt := fun _ => r, get_rasio_pt := fun _ => r,
    get_graduation_rate_pt := fun _ => r, get_cost_range_pt := fun _ => r,
    search_mahasiswa := fun _ => r, get_detail_mhs := fun _ => r,
    search_dosen := fun _ => r, get_dosen_profile := fun _ => r,
    get_dosen_penelitian := fun _ => r, get_dosen_pengabdian := fun _ => r,
    get_dosen_karya := fun _ => r, get_dosen_paten := fun _ => r,
    search_prodi := fun _ => r, get_detail_prodi := fun _ => r,
    get_desc_prodi := fun _ => r, search_all := fun _ => r,
    get_dosen_count_active := r, get_mahasiswa_count_active := r,
    get_prodi_count := r, get_pt_count := r,
    get_data_pt_bentuk := r, get_data_pt_akreditasi := r,
    get_data_pt_provinsi := r, get_data_pt_kelompok_pembina := r,
    get_data_mahasiswa_bidang := r, get_data_mahasiswa_jenis_kelamin := r,
    get_data_mahasiswa_jenjang := r, get_data_mahasiswa_status := r,
    get_data_dosen_keaktifan := r, get_data_dosen_bidang := r,
    get_data_dosen_jenis_kelamin := r, get_data_dosen_jenjang := r,
    get_data_prodi_jenjang := r, get_data_prodi_akreditasi := r,
    get_data_prodi_bidang_ilmu := r, get_data_prodi_kelompok_pembina := r }

/-- A client whose every method returns `None`. -/
def nullClient : Client :=
  constClient (Except.ok Val.none)

/-- Message `f"Found {n} {noun} matching '{keyword}'"` of a
non-empty keyword-search result (`noun` is the entity noun the four
search routes interpolate: `universities`, `students`, `lecturers`,
`programs`). -/
def foundMsg (noun : String) (keyword : String) (n : Nat) : String :=
  "Found " ++ toString n ++ " " ++ noun ++ " matching \x27" ++ keyword ++ "\x27"

/-- Message `f"No {noun} found matching '{keyword}'"` of an empty
keyword-search result. -/
def noFoundMsg (noun : String) (keyword : String) : String :=
  "No " ++ noun ++ " found matching \x27" ++ keyword ++ "\x27"

/-- The validation message for a missing `q` parameter. -/
def qRequiredMsg : String :=
  "Query parameter \x27q\x27 is required"

/-- The normalization block shared verbatim by the four keyword-search
handlers (`app.py` lines 83–106, 221–244, 280–303, 362–385): after the
upstream call returned `result`, decide which envelope to build.
`Except.error` models the `len` call raising (caught by the route's
`except` wrapper). -/
def searchBody (noun : String) (keyword : String) (result : Val) : Except String Response :=
  if truthy result then
    if isDict result && truthy (dGet result "data") then
      match pyLen (dGet result "data") with
      | Except.ok n =>
          Except.ok (create_success_response result (foundMsg noun keyword n))
      | Except.error e => Except.error e
    else if isList result && decide (0 < listLen result) then
      Except.ok (create_success_response (Val.dict [("data", result)])
        (foundMsg noun keyword (listLen result)))
    else
      Except.ok (create_success_response (Val.dict [("data", Val.list [])])
        (noFoundMsg noun keyword))
  else
    Except.ok (create_success_response (Val.dict [("data", Val.list [])])
      (noFoundMsg noun keyword))

/-- Route `GET /api/v1/universities/search` (`search_universities`): `q` is
read with default `''` and stripped; blank → 400 before any upstream
call; otherwise `client.search_pt(keyword)` then the shared
normalization. -/
def search_universities (q : Option String) (c : Client) : Response × List String :=
  let keyword := pyStrip (q.getD "")
  if keyword = "" then
    (create_error_response qRequiredMsg 400, [])
  else
    runHandler (M.bind (call "search_pt" (c.search_pt keyword)) (fun result =>
      liftE (searchBody "universities" keyword result)))

/-- Route `GET /api/v1/students/search` (`search_students`). -/
def search_students (q : Option String) (c : Client) : Response × List String :=
  let keyword := pyStrip (q.getD "")
  if keyword = "" then
    (create_error_response qRequiredMsg 400, [])
  else
    runHandler (M.bind (call "search_mahasiswa" (c.search_mahasiswa keyword)) (fun result =>
      liftE (searchBody "students" keyword result)))

/-- Route `GET /api/v1/lecturers/search` (`search_lecturers`). -/
def search_lecturers (q : Option String) (c : Client) : Response × List String :=
  let keyword := pyStrip (q.getD "")
  if keyword = "" then
    (create_error_response qRequiredMsg 400, [])
  else
    runHandler (M.bind (call "search_dosen" (c.search_dosen keyword)) (fun result =>
      liftE (searchBody "lecturers" keyword result)))

/-- Route `GET /api/v1/programs/search` (`search_programs`). -/
def search_programs (q : Option String) (c : Client) : Response × List String :=
  let keyword := pyStrip (q.getD "")
  if keyword = "" then
    (create_error_response qRequiredMsg 400, [])
  else
    runHandler (M.bind (call "search_prodi" (c.search_prodi keyword)) (fun result =>
      liftE (searchBody "programs" keyword result)))

/-- Route `GET /api/v1/universities/<id>` (`get_university_detail`): truthy
result → success with the raw result as data; falsy → 404. -/
def get_university_detail (university_id : String) (c : Client) : Response × List String :=
  runHandler (M.bind (call "get_detail_pt" (c.get_detail_pt university_id)) (fun result =>
    M.pure (if truthy result then
      create_success_response result "University details retrieved successfully"
    else
      create_error_response "University not found" 404)))

/-- Route `GET /api/v1/universities/<id>/programs` (`get_university_programs`):
`semester` is read with default `''` and NOT stripped; empty → 400.
Otherwise `client.get_prodi_pt(id, semester)`; `result.get('data')` can
raise on a non-dict truthy result (no `isinstance` guard here), and the
empty branch returns a bare `[]` as data. -/
def get_university_programs (university_id : String) (semester0 : Option String)
    (c : Client) : Response × List String :=
  let semester := semester0.getD ""
  if semester = "" then
    (create_error_response
      "Query parameter \x27semester\x27 is required (format: YYYYS, e.g., 20241)" 400, [])
  else
    runHandler (M.bind (call "get_prodi_pt" (c.get_prodi_pt university_id semester)) (fun result =>
      M.bind (if truthy result then liftE (pyGet result "data") else M.pure Val.none) (fun dv =>
        if truthy dv then
          M.bind (liftE (pyLen dv)) (fun n =>
            M.pure (create_success_response result
              ("Found " ++ toString n ++ " programs for semester " ++ semester)))
        else
          M.pure (create_success_response (Val.list [])
            ("No programs found for semester " ++ semester)))))

/-- Route `GET /api/v1/universities/<id>/logo` (`get_university_logo`). -/
def get_university_logo (university_id : String) (c : Client) : Response × List String :=
  runHandler (M.bind (call "get_logo_pt" (c.get_logo_pt university_id)) (fun result =>
    M.pure (if truthy result then
      create_success_response
        (Val.dict [("logo_base64", result), ("format", Val.str "base64")])
        "University logo retrieved successfully"
    else
      create_error_response "University logo not found" 404)))

/-- Null-safe field extraction `r.get(k) if r else None` used by the
stats/counts merge handlers (`.get` still raises on a truthy non-dict). -/
def getFieldOrNone (v : Val) (k : String) : Except String Val :=
  if truthy v then pyGet v k else Except.ok Val.none

/-- Null-safe field extraction with default, `r.get(k, d) if r else d`,
used by the lecturer-research merge handler. -/
def getFieldOrD (v : Val) (k : String) (d : Val) : Except String Val :=
  if truthy v then pyGetD v k d else Except.ok d

/-- Route `GET /api/v1/universities/<id>/stats` (`get_university_stats`): six
sequential upstream calls, then a flat dict of six null-safe fields;
always a success envelope when nothing raises. -/
def get_university_stats (university_id : String) (c : Client) : Response × List String :=
  runHandler (
    M.bind (call "get_jumlah_mahasiswa_pt" (c.get_jumlah_mahasiswa_pt university_id)) (fun student_count =>
    M.bind (call "get_jumlah_dosen_pt" (c.get_jumlah_dosen_pt university_id)) (fun lecturer_count =>
    M.bind (call "get_jumlah_prodi_pt" (c.get_jumlah_prodi_pt university_id)) (fun program_count =>
    M.bind (call "get_rasio_pt" (c.get_rasio_pt university_id)) (fun ratioRes =>
    M.bind (call "get_graduation_rate_pt" (c.get_graduation_rate_pt university_id)) (fun graduation_rate =>
    M.bind (call "get_cost_range_pt" (c.get_cost_range_pt university_id)) (fun cost_range =>
    M.bind (liftE (getFieldOrNone student_count "jumlah_mahasiswa")) (fun f1 =>
    M.bind (liftE (getFieldOrNone lecturer_count "jumlah_dosen")) (fun f2 =>
    M.bind (liftE (getFieldOrNone program_count "jumlah_prodi")) (fun f3 =>
    M.bind (liftE (getFieldOrNone ratioRes "rasio")) (fun f4 =>
    M.bind (liftE (getFieldOrNone graduation_rate "graduation_rate")) (fun f5 =>
    M.bind (liftE (getFieldOrNone cost_range "range_biaya_kuliah")) (fun f6 =>
    M.pure (create_success_response
      (Val.dict [("students", f1), ("lecturers", f2), ("programs", f3),
                 ("ratio", f4), ("graduation_rate", f5), ("cost_range", f6)])
      "University statistics retrieved successfully"))))))))))))))

/-- Route `GET /api/v1/students/<id>` (`get_student_detail`). -/
def get_student_detail (student_id : String) (c : Client) : Response × List String :=
  runHandler (M.bind (call "get_detail_mhs" (c.get_detail_mhs student_id)) (fun result =>
    M.pure (if truthy result then
      create_success_response result "Student details retrieved successfully"
    else
      create_error_response "Student not found" 404)))

/-- Route `GET /api/v1/lecturers/<id>` (`get_lecturer_profile`). -/
def get_lecturer_profile (lecturer_id : String) (c : Client) : Response × List String :=
  runHandler (M.bind (call "get_dosen_profile" (c.get_dosen_profile lecturer_id)) (fun result =>
    M.pure (if truthy result then
      create_success_response result "Lecturer profile retrieved successfully"
    else
      create_error_response "Lecturer not found" 404)))

/-- Route `GET /api/v1/lecturers/<id>/research` (`get_lecturer_research`):
four sequential upstream calls, then a flat dict of four list-valued
fields, each `r.get('data', []) if r else []`; always a success
envelope when nothing raises. -/
def get_lecturer_research (lecturer_id : String) (c : Client) : Response × List String :=
  runHandler (
    M.bind (call "get_dosen_penelitian" (c.get_dosen_penelitian lecturer_id)) (fun research =>
    M.bind (call "get_dosen_pengabdian" (c.get_dosen_pengabdian lecturer_id)) (fun community_service =>
    M.bind (call "get_dosen_karya" (c.get_dosen_karya lecturer_id)) (fun publications =>
    M.bind (call "get_dosen_paten" (c.get_dosen_paten lecturer_id)) (fun patents =>
    M.bind (liftE (getFieldOrD research "data" (Val.list []))) (fun f1 =>
    M.bind (liftE (getFieldOrD community_service "data" (Val.list []))) (fun f2 =>
    M.bind (liftE (getFieldOrD publications "data" (Val.list []))) (fun f3 =>
    M.bind (liftE (getFieldOrD patents "data" (Val.list []))) (fun f4 =>
    M.pure (create_success_response
      (Val.dict [("research", f1), ("community_service", f2),
                 ("publications", f3), ("patents", f4)])
      "Lecturer research activities retrieved successfully"))))))))))

/-- Route `GET /api/v1/programs/<id>` (`get_program_detail`): two upstream
calls; data is `{detail: detail or {}, description: description or {}}`;
404 only when both results are falsy. -/
def get_program_detail (program_id : String) (c : Client) : Response × List String :=
  runHandler (
    M.bind (call "get_detail_prodi" (c.get_detail_prodi program_id)) (fun detail =>
    M.bind (call "get_desc_prodi" (c.get_desc_prodi program_id)) (fun description =>
    M.pure (
      let result := Val.dict
        [("detail", if truthy detail then detail else Val.dict []),
         ("description", if truthy description then description else Val.dict [])]
      if truthy detail || truthy description then
        create_success_response result "Program details retrieved successfully"
      else
        create_error_response "Program not found" 404))))

/-- Route `GET /api/v1/search` (`search_all`): `q` stripped, blank → 400;
a truthy upstream result is enveloped RAW (no normalization); a falsy
one becomes a bare `[]`. -/
def search_all (q : Option String) (c : Client) : Response × List String :=
  let keyword := pyStrip (q.getD "")
  if keyword = "" then
    (create_error_response qRequiredMsg 400, [])
  else
    runHandler (M.bind (call "search_all" (c.search_all keyword)) (fun result =>
      M.pure (if truthy result then
        create_success_response result ("Search completed for \x27" ++ keyword ++ "\x27")
      else
        create_success_response (Val.list [])
          ("No results found for \x27" ++ keyword ++ "\x27"))))

/-- Route `GET /api/v1/statistics/counts` (`get_national_counts`): four
sequential upstream calls merged into four null-safe fields. -/
def get_national_counts (c : Client) : Response × List String :=
  runHandler (
    M.bind (call "get_dosen_count_active" c.get_dosen_count_active) (fun active_lecturers =>
    M.bind (call "get_mahasiswa_count_active" c.get_mahasiswa_count_active) (fun active_students =>
    M.bind (call "get_prodi_count" c.get_prodi_count) (fun programs =>
    M.bind (call "get_pt_count" c.get_pt_count) (fun universities =>
    M.bind (liftE (getFieldOrNone active_lecturers "jumlah_dosen")) (fun f1 =>
    M.bind (liftE (getFieldOrNone active_students "jumlah_mahasiswa")) (fun f2 =>
    M.bind (liftE (getFieldOrNone programs "jumlah")) (fun f3 =>
    M.bind (liftE (getFieldOrNone universities "jumlah")) (fun f4 =>
    M.pure (create_success_response
      (Val.dict [("active_lecturers", f1), ("active_students", f2),
                 ("programs", f3), ("universities", f4)])
      "National statistics retrieved successfully"))))))))))

/-- The enum-violation message of the visualizations route. -/
def invalidCategoryMsg : String :=
  "Invalid category. Valid options: universities, students, lecturers, programs"

/-- Route `GET /api/v1/statistics/visualizations` (`get_visualization_data`):
`category` defaults to `universities`; a known category issues its four
upstream calls (in dict-literal order) and wraps the raw results; an
unknown one returns the 400 enum-violation envelope with no upstream
call made. -/
def get_visualization_data (category0 : Option String) (c : Client) : Response × List String :=
  let category := category0.getD "universities"
  runHandler (
    if category = "universities" then
      M.bind (call "get_data_pt_bentuk" c.get_data_pt_bentuk) (fun v1 =>
      M.bind (call "get_data_pt_akreditasi" c.get_data_pt_akreditasi) (fun v2 =>
      M.bind (call "get_data_pt_provinsi" c.get_data_pt_provinsi) (fun v3 =>
      M.bind (call "get_data_pt_kelompok_pembina" c.get_data_pt_kelompok_pembina) (fun v4 =>
      M.pure (create_success_response
        (Val.dict [("by_form", v1), ("by_accreditation", v2),
                   ("by_province", v3), ("by_supervisor_group", v4)])
        ("Visualization data for " ++ category ++ " retrieved successfully"))))))
    else if category = "students" then
      M.bind (call "get_data_mahasiswa_bidang" c.get_data_mahasiswa_bidang) (fun v1 =>
      M.bind (call "get_data_mahasiswa_jenis_kelamin" c.get_data_mahasiswa_jenis_kelamin) (fun v2 =>
      M.bind (call "get_data_mahasiswa_jenjang" c.get_data_mahasiswa_jenjang) (fun v3 =>
      M.bind (call "get_data_mahasiswa_status" c.get_data_mahasiswa_status) (fun v4 =>
      M.pure (create_success_response
        (Val.dict [("by_field", v1), ("by_gender", v2),
                   ("by_level", v3), ("by_status", v4)])
        ("Visualization data for " ++ category ++ " retrieved successfully"))))))
    else if category = "lecturers" then
      M.bind (call "get_data_dosen_keaktifan" c.get_data_dosen_keaktifan) (fun v1 =>
      M.bind (call "get_data_dosen_bidang" c.get_data_dosen_bidang) (fun v2 =>
      M.bind (call "get_data_dosen_jenis_kelamin" c.get_data_dosen_jenis_kelamin) (fun v3 =>
      M.bind (call "get_data_dosen_jenjang" c.get_data_dosen_jenjang) (fun v4 =>
      M.pure (create_success_response
        (Val.dict [("by_activity", v1), ("by_field", v2),
                   ("by_gender", v3), ("by_level", v4)])
        ("Visualization data for " ++ category ++ " retrieved successfully"))))))
    else if category = "programs" then
      M.bind (call "get_data_prodi_jenjang" c.get_data_prodi_jenjang) (fun v1 =>
      M.bind (call "get_data_prodi_akreditasi" c.get_data_prodi_akreditasi) (fun v2 =>
      M.bind (call "get_data_prodi_bidang_ilmu" c.get_data_prodi_bidang_ilmu) (fun v3 =>
      M.bind (call "get_data_prodi_kelompok_pembina" c.get_data_prodi_kelompok_pembina) (fun v4 =>
      M.pure (create_success_response
        (Val.dict [("by_level", v1), ("by_accreditation", v2),
                   ("by_field", v3), ("by_supervisor_group", v4)])
        ("Visualization data for " ++ category ++ " retrieved successfully"))))))
    else
      M.pure (create_error_response invalidCategoryMsg 400))

/-- The domain of upstream search results documented by the spec
(mapping, sequence, or null). -/
def UpstreamShape (v : Val) : Prop :=
  v = Val.none ∨ isList v = true ∨ isDict v = true

/-- Observer: the `data` payload of a normalization outcome
(`none` when the body raised instead of returning an envelope). -/
def payload (r : Except String Response) : Option Val :=
  match r with
  | Except.ok resp => Option.some resp.data
  | Except.error _ => Option.none

/-- A non-empty dict is truthy. -/
theorem truthy_dict_cons (p : String × Val) (ps : List (String × Val)) :
    truthy (Val.dict (p :: ps)) = true := rfl

/-- Evaluation lemma: a falsy upstream result yields the empty envelope. -/
theorem searchBody_falsy (noun keyword : String) (r : Val) (h : truthy r = false) :
    searchBody noun keyword r =
      Except.ok (create_success_response (Val.dict [("data", Val.list [])])
        (noFoundMsg noun keyword)) := by
  simp [searchBody, h]

/-- Evaluation lemma: a dict with truthy `data` is passed through (or the
`len` call raises). -/
theorem searchBody_dict_data (noun keyword : String) (kvs : List (String × Val))
    (h : truthy (dGet (Val.dict kvs) "data") = true) :
    searchBody noun keyword (Val.dict kvs) =
      (match pyLen (dGet (Val.dict kvs) "data") with
        | Except.ok n => Except.ok (create_success_response (Val.dict kvs) (foundMsg noun keyword n))
        | Except.error e => Except.error e) := by
  cases kvs with
  | nil => simp [dGet, truthy] at h
  | cons p ps => simp [searchBody, truthy_dict_cons, isDict, h]

/-- Evaluation lemma: a dict with falsy or absent `data` yields the empty
envelope. -/
theorem searchBody_dict_nodata (noun keyword : String) (kvs : List (String × Val))
    (h : truthy (dGet (Val.dict kvs) "data") = false) :
    searchBody noun keyword (Val.dict kvs) =
      Except.ok (create_success_response (Val.dict [("data", Val.list [])])
        (noFoundMsg noun keyword)) := by
  cases kvs with
  | nil => rfl
  | cons p ps => simp [searchBody, truthy_dict_cons, isDict, isList, h]

/-- Evaluation lemma: the empty upstream list yields the empty envelope. -/
theorem searchBody_list_nil (noun keyword : String) :
    searchBody noun keyword (Val.list []) =
      Except.ok (create_success_response (Val.dict [("data", Val.list [])])
        (noFoundMsg noun keyword)) := rfl

/-- Evaluation lemma: a non-empty upstream list is wrapped. -/
theorem searchBody_list_cons (noun keyword : String) (a : Val) (as : List Val) :
    searchBody noun keyword (Val.list (a :: as)) =
      Except.ok (create_success_response (Val.dict [("data", Val.list (a :: as))])
        (foundMsg noun keyword (as.length + 1))) := by
  simp [searchBody, truthy, isDict, isList, listLen]

/-- Claim C1: the four-branch precedence of the keyword-search
normalization shared by the universities/students/lecturers/programs
search handlers: a falsy result yields the empty envelope; else a dict
with a truthy `data` value is passed through unchanged with the found
message computed from `len(result['data'])`; else a non-empty list is
wrapped as `{data: result}` with the found message computed from
`len(result)`; else (including a dict whose `data` key is absent or
falsy) the empty envelope — in exactly this order. -/
theorem search_normalization_precedence (noun keyword : String) (result : Val) :
    (truthy result = false →
      searchBody noun keyword result =
        Except.ok (create_success_response (Val.dict [("data", Val.list [])])
          (noFoundMsg noun keyword)))
    ∧ (∀ n : Nat, truthy result = true → isDict result = true →
        truthy (dGet result "data") = true →
        pyLen (dGet result "data") = Except.ok n →
        searchBody noun keyword result =
          Except.ok (create_success_response result (foundMsg noun keyword n)))
    ∧ (truthy result = true → (isDict result = true → truthy (dGet result "data") = false) →
        isList result = true → 0 < listLen result →
        searchBody noun keyword result =
          Except.ok (create_success_response (Val.dict [("data", result)])
            (foundMsg noun keyword (listLen result))))
    ∧ (truthy result = true → (isDict result = true → truthy (dGet result "data") = false) →
        (isList result = true → listLen result = 0) →
        searchBody noun keyword result =
          Except.ok (create_success_response (Val.dict [("data", Val.list [])])
            (noFoundMsg noun keyword))) := by
  refine ⟨fun h => by simp [searchBody, h],
          fun n h1 h2 h3 h4 => by simp [searchBody, h1, h2, h3, h4], ?_, ?_⟩
  · intro h1 h2 h3 h4
    cases result <;> simp_all [searchBody, isList, isDict, listLen]
  · intro h1 h2 h3
    cases result <;> simp_all [searchBody, isList, isDict, listLen]

/-- Witness for C1: a dict with one record under `data` is passed
through with the `Found 1` message. -/
theorem search_normalization_precedence_witness :
    searchBody "universities" "x" (Val.dict [("data", Val.list [Val.int 1])]) =
      Except.ok (create_success_response (Val.dict [("data", Val.list [Val.int 1])])
        (foundMsg "universities" "x" 1)) :=
  (search_normalization_precedence "universities" "x"
    (Val.dict [("data", Val.list [Val.int 1])])).2.1 1 rfl rfl rfl rfl

/-- Claim C2: over the spec's upstream-result domain (null, sequence or
mapping), the normalization yields the empty payload `{data: []}` iff
the result is null, the empty list, the empty dict, or a dict whose
`data` key is falsy or absent. -/
theorem search_empty_envelope_iff (noun keyword : String) (r : Val) (h : UpstreamShape r) :
    payload (searchBody noun keyword r) = Option.some (Val.dict [("data", Val.list [])])
    ↔ (r = Val.none ∨ r = Val.list [] ∨ r = Val.dict [] ∨
       (isDict r = true ∧ truthy (dGet r "data") = false)) := by
  cases r with
  | none =>
      constructor
      · intro _; exact Or.inl rfl
      · intro _; rw [searchBody_falsy noun keyword Val.none rfl]; rfl
  | bool b => rcases h with h | h | h <;> simp [isList, isDict] at h
  | int n => rcases h with h | h | h <;> simp [isList, isDict] at h
  | str s => rcases h with h | h | h <;> simp [isList, isDict] at h
  | list xs =>
      cases xs with
      | nil =>
          constructor
          · intro _; exact Or.inr (Or.inl rfl)
          · intro _; rw [searchBody_list_nil noun keyword]; rfl
      | cons a as =>
          constructor
          · intro hp
            rw [searchBody_list_cons] at hp
            simp [payload, create_success_response] at hp
          · intro hor
            rcases hor with h1 | h1 | h1 | ⟨h1, _⟩ <;> simp [isDict] at h1
  | dict kvs =>
      by_cases hd : truthy (dGet (Val.dict kvs) "data") = true
      · have hk : kvs ≠ [] := by
          intro he; subst he; exact absurd hd (by decide)
        constructor
        · intro hp
          rw [searchBody_dict_data noun keyword kvs hd] at hp
          rcases hl : pyLen (dGet (Val.dict kvs) "data") with e | n
          · rw [hl] at hp; simp [payload] at hp
          · rw [hl] at hp
            simp only [payload, create_success_response, Option.some.injEq] at hp
            simp only [Val.dict.injEq] at hp
            subst hp
            exact absurd hd (by decide)
        · intro hor
          rcases hor with h1 | h1 | h1 | ⟨_, h2⟩
          · exact absurd h1 (by simp)
          · exact absurd h1 (by simp)
          · simp only [Val.dict.injEq] at h1; exact absurd h1 hk
          · rw [hd] at h2; exact absurd h2 (by simp)
      · have hd2 : truthy (dGet (Val.dict kvs) "data") = false := by
          simpa using hd
        constructor
        · intro _; exact Or.inr (Or.inr (Or.inr ⟨rfl, hd2⟩))
        · intro _; rw [searchBody_dict_nodata noun keyword kvs hd2]; rfl

/-- Witness for C2: the null upstream result yields the empty payload. -/
theorem search_empty_envelope_iff_witness :
    payload (searchBody "universities" "x" Val.none) =
      Option.some (Val.dict [("data", Val.list [])]) :=
  (search_empty_envelope_iff "universities" "x" Val.none (Or.inl rfl)).mpr (Or.inl rfl)

/-- Claim C3: a dict with a truthy `data` value (whose `len` is defined)
is passed through unchanged as the envelope payload; in particular,
normalizing an already-normalized `{data: [...]}` dict returns it
unchanged as payload (idempotence). -/
theorem search_identity_idempotent (noun keyword : String) :
    (∀ kvs : List (String × Val), ∀ n : Nat,
       truthy (dGet (Val.dict kvs) "data") = true →
       pyLen (dGet (Val.dict kvs) "data") = Except.ok n →
       payload (searchBody noun keyword (Val.dict kvs)) = Option.some (Val.dict kvs))
    ∧ (∀ xs : List Val,
       payload (searchBody noun keyword (Val.dict [("data", Val.list xs)])) =
         Option.some (Val.dict [("data", Val.list xs)])) := by
  constructor
  · intro kvs n hd hl
    rw [searchBody_dict_data noun keyword kvs hd, hl]
    rfl
  · intro xs
    cases xs with
    | nil => rw [searchBody_dict_nodata noun keyword _ (by decide)]; rfl
    | cons a as =>
        rw [searchBody_dict_data noun keyword [("data", Val.list (a :: as))] rfl]
        rfl

/-- Witness for C3: a one-record normalized dict is returned unchanged. -/
theorem search_identity_idempotent_witness :
    payload (searchBody "students" "y" (Val.dict [("data", Val.list [Val.int 2])])) =
      Option.some (Val.dict [("data", Val.list [Val.int 2])]) :=
  (search_identity_idempotent "students" "y").1 [("data", Val.list [Val.int 2])] 1 rfl rfl

/-- Counterexample to C4 as stated: a `semester` parameter consisting of
a single space is "blank (only whitespace)" yet the programs handler
does not return a 400 validation failure — it calls upstream
(`get_prodi_pt` appears in the call log) and returns a 200 success
envelope, because the source reads `semester` without `.strip()`. -/
theorem blank_semester_calls_upstream :
    (get_university_programs "u1" (Option.some " ") nullClient).fst.status = 200 ∧
    (get_university_programs "u1" (Option.some " ") nullClient).fst.success = true ∧
    (get_university_programs "u1" (Option.some " ") nullClient).snd = ["get_prodi_pt"] :=
  ⟨rfl, rfl, rfl⟩

/-- Claim C4 (amended): the handlers requiring `q` (the four keyword
searches and the combined search) return the 400 validation envelope
with no upstream call when `q` is missing or blank (stripped empty);
the programs handler validates `semester` for presence/non-emptiness
only — a missing or empty `semester` yields 400 with no upstream call,
but a whitespace-only `semester` passes validation. -/
theorem validation_before_upstream (q s : Option String) (uid : String) (c : Client) :
    (pyStrip (q.getD "") = "" →
      search_universities q c = (create_error_response qRequiredMsg 400, [])
      ∧ search_students q c = (create_error_response qRequiredMsg 400, [])
      ∧ search_lecturers q c = (create_error_response qRequiredMsg 400, [])
      ∧ search_programs q c = (create_error_response qRequiredMsg 400, [])
      ∧ search_all q c = (create_error_response qRequiredMsg 400, []))
    ∧ (s.getD "" = "" →
      get_university_programs uid s c =
        (create_error_response
          "Query parameter \x27semester\x27 is required (format: YYYYS, e.g., 20241)" 400, [])) := by
  constructor
  · intro h
    refine ⟨?_, ?_, ?_, ?_, ?_⟩ <;>
      simp [search_universities, search_students, search_lecturers, search_programs,
            search_all, h]
  · intro h
    simp [get_university_programs, h]

/-- Witness for C4 (amended): missing `q` and missing `semester` both
yield the 400 validation envelope with an empty call log. -/
theorem validation_before_upstream_witness :
    search_universities Option.none nullClient = (create_error_response qRequiredMsg 400, []) ∧
    get_university_programs "u1" Option.none nullClient =
      (create_error_response
        "Query parameter \x27semester\x27 is required (format: YYYYS, e.g., 20241)" 400, []) :=
  ⟨((validation_before_upstream Option.none Option.none "u1" nullClient).1 rfl).1,
   (validation_before_upstream Option.none Option.none "u1" nullClient).2 rfl⟩

/-- Claim C5: when every upstream call returns null, the university
stats handler (6 fields), the lecturer research handler (4 list-valued
fields) and the national counts handler (4 fields) return success
envelopes (HTTP 200): each absent upstream result becomes a null-valued
field (an empty list for the research handler); moreover none of the
three handlers can ever answer 404, for any upstream behaviour. -/
theorem merge_handlers_all_null_success (uid lid : String) (c : Client)
    (h1 : c.get_jumlah_mahasiswa_pt uid = Except.ok Val.none)
    (h2 : c.get_jumlah_dosen_pt uid = Except.ok Val.none)
    (h3 : c.get_jumlah_prodi_pt uid = Except.ok Val.none)
    (h4 : c.get_rasio_pt uid = Except.ok Val.none)
    (h5 : c.get_graduation_rate_pt uid = Except.ok Val.none)
    (h6 : c.get_cost_range_pt uid = Except.ok Val.none)
    (h7 : c.get_dosen_penelitian lid = Except.ok Val.none)
    (h8 : c.get_dosen_pengabdian lid = Except.ok Val.none)
    (h9 : c.get_dosen_karya lid = Except.ok Val.none)
    (h10 : c.get_dosen_paten lid = Except.ok Val.none)
    (h11 : c.get_dosen_count_active = Except.ok Val.none)
    (h12 : c.get_mahasiswa_count_active = Except.ok Val.none)
    (h13 : c.get_prodi_count = Except.ok Val.none)
    (h14 : c.get_pt_count = Except.ok Val.none) :
    get_university_stats uid c =
      (create_success_response
        (Val.dict [("students", Val.none), ("lecturers", Val.none), ("programs", Val.none),
                   ("ratio", Val.none), ("graduation_rate", Val.none), ("cost_range", Val.none)])
        "University statistics retrieved successfully",
       ["get_jumlah_mahasiswa_pt", "get_jumlah_dosen_pt", "get_jumlah_prodi_pt",
        "get_rasio_pt", "get_graduation_rate_pt", "get_cost_range_pt"])
    ∧ get_lecturer_research lid c =
      (create_success_response
        (Val.dict [("research", Val.list []), ("community_service", Val.list []),
                   ("publications", Val.list []), ("patents", Val.list [])])
        "Lecturer research activities retrieved successfully",
       ["get_dosen_penelitian", "get_dosen_pengabdian", "get_dosen_karya", "get_dosen_paten"])
    ∧ get_national_counts c =
      (create_success_response
        (Val.dict [("active_lecturers", Val.none), ("active_students", Val.none),
                   ("programs", Val.none), ("universities", Val.none)])
        "National statistics retrieved successfully",
       ["get_dosen_count_active", "get_mahasiswa_count_active", "get_prodi_count", "get_pt_count"])
    ∧ (∀ c2 : Client, (get_university_stats uid c2).fst.status ≠ 404
        ∧ (get_lecturer_research lid c2).fst.status ≠ 404
        ∧ (get_national_counts c2).fst.status ≠ 404) := by
  refine ⟨?_, ?_, ?_, ?_⟩
  · simp [get_university_stats, runHandler, M.bind, M.pure, call, liftE, getFieldOrNone,
          truthy, h1, h2, h3, h4, h5, h6]
  · simp [get_lecturer_research, runHandler, M.bind, M.pure, call, liftE, getFieldOrD,
          truthy, h7, h8, h9, h10]
  · simp [get_national_counts, runHandler, M.bind, M.pure, call, liftE, getFieldOrNone,
          truthy, h11, h12, h13, h14]
  · intro c2
    refine ⟨?_, ?_, ?_⟩
    · simp only [get_university_stats, runHandler, M.bind, M.pure, call, liftE]
      split
      next r log heq =>
        repeat' split at heq
        all_goals simp_all [create_success_response, create_error_response]
        all_goals (obtain ⟨hh1, hh2⟩ := heq; subst hh1; simp)
      next e log heq => simp [create_error_response]
    · simp only [get_lecturer_research, runHandler, M.bind, M.pure, call, liftE]
      split
      next r log heq =>
        repeat' split at heq
        all_goals simp_all [create_success_response, create_error_response]
        all_goals (obtain ⟨hh1, hh2⟩ := heq; subst hh1; simp)
      next e log heq => simp [create_error_response]
    · simp only [get_national_counts, runHandler, M.bind, M.pure, call, liftE]
      split
      next r log heq =>
        repeat' split at heq
        all_goals simp_all [create_success_response, create_error_response]
        all_goals (obtain ⟨hh1, hh2⟩ := heq; subst hh1; simp)
      next e log heq => simp [create_error_response]

/-- Witness for C5: the all-null client makes the national counts
handler answer 200 with four null fields. -/
theorem merge_handlers_all_null_success_witness :
    get_national_counts nullClient =
      (create_success_response
        (Val.dict [("active_lecturers", Val.none), ("active_students", Val.none),
                   ("programs", Val.none), ("universities", Val.none)])
        "National statistics retrieved successfully",
       ["get_dosen_count_active", "get_mahasiswa_count_active", "get_prodi_count", "get_pt_count"]) :=
  (merge_handlers_all_null_success "u1" "d1" nullClient
    rfl rfl rfl rfl rfl rfl rfl rfl rfl rfl rfl rfl rfl rfl).2.2.1

/-- Claim C6: the program-detail handler answers the 404 not-found
envelope iff both upstream results are falsy; if at least one is truthy
it answers success with `{detail: detail-or-empty-dict, description:
description-or-empty-dict}`. -/
theorem program_detail_404_iff_both_falsy (pid : String) (c : Client) (dv descv : Val)
    (hd : c.get_detail_prodi pid = Except.ok dv)
    (hs : c.get_desc_prodi pid = Except.ok descv) :
    (truthy dv = false → truthy descv = false →
       get_program_detail pid c =
         (create_error_response "Program not found" 404, ["get_detail_prodi", "get_desc_prodi"]))
    ∧ (truthy dv = true ∨ truthy descv = true →
       get_program_detail pid c =
         (create_success_response
           (Val.dict [("detail", if truthy dv then dv else Val.dict []),
                      ("description", if truthy descv then descv else Val.dict [])])
           "Program details retrieved successfully",
          ["get_detail_prodi", "get_desc_prodi"])) := by
  constructor
  · intro h1 h2
    simp [get_program_detail, runHandler, M.bind, M.pure, call, hd, hs, h1, h2]
  · intro hor
    rcases hor with h | h
    · simp [get_program_detail, runHandler, M.bind, M.pure, call, hd, hs, h]
    · simp [get_program_detail, runHandler, M.bind, M.pure, call, hd, hs, h]

/-- Witness for C6: both upstream results null → 404 not-found envelope. -/
theorem program_detail_404_iff_both_falsy_witness :
    get_program_detail "p1" nullClient =
      (create_error_response "Program not found" 404, ["get_detail_prodi", "get_desc_prodi"]) :=
  (program_detail_404_iff_both_falsy "p1" nullClient Val.none Val.none rfl rfl).1 rfl rfl

/-- Claim C7: any category outside the enum makes the visualizations
handler answer the 400 enum-violation envelope (not a 500), whose
message names the four valid options, with zero upstream data calls in
the log. -/
theorem invalid_category_400_no_calls (cat : String) (c : Client)
    (h1 : cat ≠ "universities") (h2 : cat ≠ "students")
    (h3 : cat ≠ "lecturers") (h4 : cat ≠ "programs") :
    get_visualization_data (Option.some cat) c = (create_error_response invalidCategoryMsg 400, [])
    ∧ invalidCategoryMsg =
        "Invalid category. Valid options: " ++ "universities, students, lecturers, programs" := by
  refine ⟨?_, rfl⟩
  simp [get_visualization_data, runHandler, M.pure, Option.getD, h1, h2, h3, h4]

/-- Witness for C7: `category=unknown` yields the 400 envelope with an
empty call log. -/
theorem invalid_category_400_no_calls_witness :
    get_visualization_data (Option.some "unknown") nullClient =
      (create_error_response invalidCategoryMsg 400, []) :=
  (invalid_category_400_no_calls "unknown" nullClient
    (by decide) (by decide) (by decide) (by decide)).1

/-- Claim C8: in every handler, an upstream call that raises an
exception `e` — at any position of the handler's call sequence, first
or mid-sequence — produces the failure envelope `success=false`, HTTP
500, whose error text `Internal server error: ` ++ `e` contains the
raised message; the call log stops at the failing call and shows each
call at most once (no retry, later calls never issued) and the
envelope's data is null (no partial result). -/
theorem upstream_exception_yields_500 (e i q : String) (c : Client)
    (v1 v2 v3 v4 v5 : Val) (hq : pyStrip q ≠ "") :
    (c.get_jumlah_mahasiswa_pt i = Except.error e →
       get_university_stats i c =
         (create_error_response (internalServerError e) 500, ["get_jumlah_mahasiswa_pt"]))
    ∧
    (c.get_jumlah_mahasiswa_pt i = Except.ok v1 → c.get_jumlah_dosen_pt i = Except.error e →
       get_university_stats i c =
         (create_error_response (internalServerError e) 500, ["get_jumlah_mahasiswa_pt", "get_jumlah_dosen_pt"]))
    ∧
    (c.get_jumlah_mahasiswa_pt i = Except.ok v1 → c.get_jumlah_dosen_pt i = Except.ok v2 → c.get_jumlah_prodi_pt i = Except.error e →
       get_university_stats i c =
         (create_error_response (internalServerError e) 500, ["get_jumlah_mahasiswa_pt", "get_jumlah_dosen_pt", "get_jumlah_prodi_pt"]))
    ∧
    (c.get_jumlah_mahasiswa_pt i = Except.ok v1 → c.get_jumlah_dosen_pt i = Except.ok v2 → c.get_jumlah_prodi_pt i = Except.ok v3 → c.get_rasio_pt i = Except.error e →
       get_university_stats i c =
         (create_error_response (internalServerError e) 500, ["get_jumlah_mahasiswa_pt", "get_jumlah_dosen_pt", "get_jumlah_prodi_pt", "get_rasio_pt"]))
    ∧
    (c.get_jumlah_mahasiswa_pt i = Except.ok v1 → c.get_jumlah_dosen_pt i = Except.ok v2 → c.get_jumlah_prodi_pt i = Except.ok v3 → c.get_rasio_pt i = Except.ok v4 → c.get_graduation_rate_pt i = Except.error e →
       get_university_stats i c =
         (create_error_response (internalServerError e) 500, ["get_jumlah_mahasiswa_pt", "get_jumlah_dosen_pt", "get_jumlah_prodi_pt", "get_rasio_pt", "get_graduation_rate_pt"]))
    ∧
    (c.get_jumlah_mahasiswa_pt i = Except.ok v1 → c.get_jumlah_dosen_pt i = Except.ok v2 → c.get_jumlah_prodi_pt i = Except.ok v3 → c.get_rasio_pt i = Except.ok v4 → c.get_graduation_rate_pt i = Except.ok v5 → c.get_cost_range_pt i = Except.error e →
       get_university_stats i c =
         (create_error_response (internalServerError e) 500, ["get_jumlah_mahasiswa_pt", "get_jumlah_dosen_pt", "get_jumlah_prodi_pt", "get_rasio_pt", "get_graduation_rate_pt", "get_cost_range_pt"]))
    ∧
    (c.get_dosen_penelitian i = Except.error e →
       get_lecturer_research i c =
         (create_error_response (internalServerError e) 500, ["get_dosen_penelitian"]))
    ∧
    (c.get_dosen_penelitian i = Except.ok v1 → c.get_dosen_pengabdian i = Except.error e →
       get_lecturer_research i c =
         (create_error_response (internalServerError e) 500, ["get_dosen_penelitian", "get_dosen_pengabdian"]))
    ∧
    (c.get_dosen_penelitian i = Except.ok v1 → c.get_dosen_pengabdian i = Except.ok v2 → c.get_dosen_karya i = Except.error e →
       get_lecturer_research i c =
         (create_error_response (internalServerError e) 500, ["get_dosen_penelitian", "get_dosen_pengabdian", "get_dosen_karya"]))
    ∧
    (c.get_dosen_penelitian i = Except.ok v1 → c.get_dosen_pengabdian i = Except.ok v2 → c.get_dosen_karya i = Except.ok v3 → c.get_dosen_paten i = Except.error e →
       get_lecturer_research i c =
         (create_error_response (internalServerError e) 500, ["get_dosen_penelitian", "get_dosen_pengabdian", "get_dosen_karya", "get_dosen_paten"]))
    ∧
    (c.get_dosen_count_active = Except.error e →
       get_national_counts c =
         (create_error_response (internalServerError e) 500, ["get_dosen_count_active"]))
    ∧
    (c.get_dosen_count_active = Except.ok v1 → c.get_mahasiswa_count_active = Except.error e →
       get_national_counts c =
         (create_error_response (internalServerError e) 500, ["get_dosen_count_active", "get_mahasiswa_count_active"]))
    ∧
    (c.get_dosen_count_active = Except.ok v1 → c.get_mahasiswa_count_active = Except.ok v2 → c.get_prodi_count = Except.error e →
       get_national_counts c =
         (create_error_response (internalServerError e) 500, ["get_dosen_count_active", "get_mahasiswa_count_active", "get_prodi_count"]))
    ∧
    (c.get_dosen_count_active = Except.ok v1 → c.get_mahasiswa_count_active = Except.ok v2 → c.get_prodi_count = Except.ok v3 → c.get_pt_count = Except.error e →
       get_national_counts c =
         (create_error_response (internalServerError e) 500, ["get_dosen_count_active", "get_mahasiswa_count_active", "get_prodi_count", "get_pt_count"]))
    ∧
    (c.get_detail_prodi i = Except.error e →
       get_program_detail i c =
         (create_error_response (internalServerError e) 500, ["get_detail_prodi"]))
    ∧
    (c.get_detail_prodi i = Except.ok v1 → c.get_desc_prodi i = Except.error e →
       get_program_detail i c =
         (create_error_response (internalServerError e) 500, ["get_detail_prodi", "get_desc_prodi"]))
    ∧
    (c.get_detail_pt i = Except.error e →
       get_university_detail i c =
         (create_error_response (internalServerError e) 500, ["get_detail_pt"]))
    ∧
    (c.get_logo_pt i = Except.error e →
       get_university_logo i c =
         (create_error_response (internalServerError e) 500, ["get_logo_pt"]))
    ∧
    (c.get_detail_mhs i = Except.error e →
       get_student_detail i c =
         (create_error_response (internalServerError e) 500, ["get_detail_mhs"]))
    ∧
    (c.get_dosen_profile i = Except.error e →
       get_lecturer_profile i c =
         (create_error_response (internalServerError e) 500, ["get_dosen_profile"]))
    ∧
    (c.search_pt (pyStrip q) = Except.error e →
       search_universities (Option.some q) c =
         (create_error_response (internalServerError e) 500, ["search_pt"]))
    ∧
    (c.search_mahasiswa (pyStrip q) = Except.error e →
       search_students (Option.some q) c =
         (create_error_response (internalServerError e) 500, ["search_mahasiswa"]))
    ∧
    (c.search_dosen (pyStrip q) = Except.error e →
       search_lecturers (Option.some q) c =
         (create_error_response (internalServerError e) 500, ["search_dosen"]))
    ∧
    (c.search_prodi (pyStrip q) = Except.error e →
       search_programs (Option.some q) c =
         (create_error_response (internalServerError e) 500, ["search_prodi"]))
    ∧
    (c.search_all (pyStrip q) = Except.error e →
       search_all (Option.some q) c =
         (create_error_response (internalServerError e) 500, ["search_all"]))
    ∧
    (c.get_prodi_pt i "20241" = Except.error e →
       get_university_programs i (Option.some "20241") c =
         (create_error_response (internalServerError e) 500, ["get_prodi_pt"]))
    ∧
    (c.get_data_pt_bentuk = Except.error e →
       get_visualization_data (Option.some "universities") c =
         (create_error_response (internalServerError e) 500, ["get_data_pt_bentuk"]))
    ∧
    (c.get_data_pt_bentuk = Except.ok v1 → c.get_data_pt_akreditasi = Except.error e →
       get_visualization_data (Option.some "universities") c =
         (create_error_response (internalServerError e) 500, ["get_data_pt_bentuk", "get_data_pt_akreditasi"]))
    ∧
    (c.get_data_pt_bentuk = Except.ok v1 → c.get_data_pt_akreditasi = Except.ok v2 → c.get_data_pt_provinsi = Except.error e →
       get_visualization_data (Option.some "universities") c =
         (create_error_response (internalServerError e) 500, ["get_data_pt_bentuk", "get_data_pt_akreditasi", "get_data_pt_provinsi"]))
    ∧
    (c.get_data_pt_bentuk = Except.ok v1 → c.get_data_pt_akreditasi = Except.ok v2 → c.get_data_pt_provinsi = Except.ok v3 → c.get_data_pt_kelompok_pembina = Except.error e →
       get_visualization_data (Option.some "universities") c =
         (create_error_response (internalServerError e) 500, ["get_data_pt_bentuk", "get_data_pt_akreditasi", "get_data_pt_provinsi", "get_data_pt_kelompok_pembina"]))
    ∧
    (c.get_data_mahasiswa_bidang = Except.error e →
       get_visualization_data (Option.some "students") c =
         (create_error_response (internalServerError e) 500, ["get_data_mahasiswa_bidang"]))
    ∧
    (c.get_data_mahasiswa_bidang = Except.ok v1 → c.get_data_mahasiswa_jenis_kelamin = Except.error e →
       get_visualization_data (Option.some "students") c =
         (create_error_response (internalServerError e) 500, ["get_data_mahasiswa_bidang", "get_data_mahasiswa_jenis_kelamin"]))
    ∧
    (c.get_data_mahasiswa_bidang = Except.ok v1 → c.get_data_mahasiswa_jenis_kelamin = Except.ok v2 → c.get_data_mahasiswa_jenjang = Except.error e →
       get_visualization_data (Option.some "students") c =
         (create_error_response (internalServerError e) 500, ["get_data_mahasiswa_bidang", "get_data_mahasiswa_jenis_kelamin", "get_data_mahasiswa_jenjang"]))
    ∧
    (c.get_data_mahasiswa_bidang = Except.ok v1 → c.get_data_mahasiswa_jenis_kelamin = Except.ok v2 → c.get_data_mahasiswa_jenjang = Except.ok v3 → c.get_data_mahasiswa_status = Except.error e →
       get_visualization_data (Option.some "students") c =
         (create_error_response (internalServerError e) 500, ["get_data_mahasiswa_bidang", "get_data_mahasiswa_jenis_kelamin", "get_data_mahasiswa_jenjang", "get_data_mahasiswa_status"]))
    ∧
    (c.get_data_dosen_keaktifan = Except.error e →
       get_visualization_data (Option.some "lecturers") c =
         (create_error_response (internalServerError e) 500, ["get_data_dosen_keaktifan"]))
    ∧
    (c.get_data_dosen_keaktifan = Except.ok v1 → c.get_data_dosen_bidang = Except.error e →
       get_visualization_data (Option.some "lecturers") c =
         (create_error_response (internalServerError e) 500, ["get_data_dosen_keaktifan", "get_data_dosen_bidang"]))
    ∧
    (c.get_data_dosen_keaktifan = Except.ok v1 → c.get_data_dosen_bidang = Except.ok v2 → c.get_data_dosen_jenis_kelamin = Except.error e →
       get_visualization_data (Option.some "lecturers") c =
         (create_error_response (internalServerError e) 500, ["get_data_dosen_keaktifan", "get_data_dosen_bidang", "get_data_dosen_jenis_kelamin"]))
    ∧
    (c.get_data_dosen_keaktifan = Except.ok v1 → c.get_data_dosen_bidang = Except.ok v2 → c.get_data_dosen_jenis_kelamin = Except.ok v3 → c.get_data_dosen_jenjang = Except.error e →
       get_visualization_data (Option.some "lecturers") c =
         (create_error_response (internalServerError e) 500, ["get_data_dosen_keaktifan", "get_data_dosen_bidang", "get_data_dosen_jenis_kelamin", "get_data_dosen_jenjang"]))
    ∧
    (c.get_data_prodi_jenjang = Except.error e →
       get_visualization_data (Option.some "programs") c =
         (create_error_response (internalServerError e) 500, ["get_data_prodi_jenjang"]))
    ∧
    (c.get_data_prodi_jenjang = Except.ok v1 → c.get_data_prodi_akreditasi = Except.error e →
       get_visualization_data (Option.some "programs") c =
         (create_error_response (internalServerError e) 500, ["get_data_prodi_jenjang", "get_data_prodi_akreditasi"]))
    ∧
    (c.get_data_prodi_jenjang = Except.ok v1 → c.get_data_prodi_akreditasi = Except.ok v2 → c.get_data_prodi_bidang_ilmu = Except.error e →
       get_visualization_data (Option.some "programs") c =
         (create_error_response (internalServerError e) 500, ["get_data_prodi_jenjang", "get_data_prodi_akreditasi", "get_data_prodi_bidang_ilmu"]))
    ∧
    (c.get_data_prodi_jenjang = Except.ok v1 → c.get_data_prodi_akreditasi = Except.ok v2 → c.get_data_prodi_bidang_ilmu = Except.ok v3 → c.get_data_prodi_kelompok_pembina = Except.error e →
       get_visualization_data (Option.some "programs") c =
         (create_error_response (internalServerError e) 500, ["get_data_prodi_jenjang", "get_data_prodi_akreditasi", "get_data_prodi_bidang_ilmu", "get_data_prodi_kelompok_pembina"]))
    ∧
    (internalServerError e = "Internal server error: " ++ e) := by
  refine ⟨?_, ?_, ?_, ?_, ?_, ?_, ?_, ?_, ?_, ?_, ?_, ?_, ?_, ?_, ?_, ?_, ?_, ?_, ?_, ?_, ?_, ?_, ?_, ?_, ?_, ?_, ?_, ?_, ?_, ?_, ?_, ?_, ?_, ?_, ?_, ?_, ?_, ?_, ?_, ?_, ?_, ?_, ?_⟩ <;>
    (intros
     simp_all [get_university_stats, get_lecturer_research, get_national_counts,
               get_program_detail, get_university_detail, get_university_logo,
               get_student_detail, get_lecturer_profile, search_universities,
               search_students, search_lecturers, search_programs, search_all,
               get_university_programs, get_visualization_data, Option.getD,
               internalServerError, runHandler, M.bind, M.pure, call, liftE])

/-- Witness for C8: the sixth stats call raising after five successful
calls yields the 500 envelope with all six calls logged once. -/
theorem upstream_exception_yields_500_witness :
    get_university_stats "u1"
      { nullClient with get_cost_range_pt := fun _ => Except.error "boom" } =
      (create_error_response (internalServerError "boom") 500,
       ["get_jumlah_mahasiswa_pt", "get_jumlah_dosen_pt", "get_jumlah_prodi_pt",
        "get_rasio_pt", "get_graduation_rate_pt", "get_cost_range_pt"]) :=
  (upstream_exception_yields_500 "boom" "u1" "x"
      { nullClient with get_cost_range_pt := fun _ => Except.error "boom" }
      Val.none Val.none Val.none Val.none Val.none (by decide)).2.2.2.2.2.1
    rfl rfl rfl rfl rfl rfl

/-- A truthy `v.get(k)` on a dict implies the key is present. -/
theorem hasKey_of_truthy_dGet (kvs : List (String × Val)) (k : String)
    (h : truthy (dGet (Val.dict kvs) k) = true) :
    hasKey (Val.dict kvs) k = true := by
  rcases hl : kvs.lookup k with _ | v
  · simp [dGet, hl, truthy] at h
  · simp [hasKey, hl]

/-- Evaluation lemma: a truthy result that is neither dict nor list
falls to the empty branch. -/
theorem searchBody_other (noun keyword : String) (r : Val)
    (h1 : isDict r = false) (h2 : isList r = false) :
    searchBody noun keyword r =
      Except.ok (create_success_response (Val.dict [("data", Val.list [])])
        (noFoundMsg noun keyword)) := by
  rcases ht : truthy r with _ | _
  · exact searchBody_falsy noun keyword r ht
  · simp [searchBody, ht, h1, h2]

/-- Any envelope the normalization returns carries a dict payload with
a `data` key. -/
theorem searchBody_ok_shape (noun keyword : String) (r : Val) (resp : Response)
    (h : searchBody noun keyword r = Except.ok resp) :
    isDict resp.data = true ∧ hasKey resp.data "data" = true := by
  cases r with
  | none =>
      rw [searchBody_falsy noun keyword Val.none rfl] at h
      simp only [Except.ok.injEq] at h; subst h
      exact ⟨rfl, rfl⟩
  | bool b =>
      rw [searchBody_other noun keyword (Val.bool b) rfl rfl] at h
      simp only [Except.ok.injEq] at h; subst h
      exact ⟨rfl, rfl⟩
  | int n =>
      rw [searchBody_other noun keyword (Val.int n) rfl rfl] at h
      simp only [Except.ok.injEq] at h; subst h
      exact ⟨rfl, rfl⟩
  | str s =>
      rw [searchBody_other noun keyword (Val.str s) rfl rfl] at h
      simp only [Except.ok.injEq] at h; subst h
      exact ⟨rfl, rfl⟩
  | list xs =>
      cases xs with
      | nil =>
          rw [searchBody_list_nil] at h
          simp only [Except.ok.injEq] at h; subst h
          exact ⟨rfl, rfl⟩
      | cons a as =>
          rw [searchBody_list_cons] at h
          simp only [Except.ok.injEq] at h; subst h
          exact ⟨rfl, rfl⟩
  | dict kvs =>
      by_cases hd : truthy (dGet (Val.dict kvs) "data") = true
      · rw [searchBody_dict_data noun keyword kvs hd] at h
        rcases hl : pyLen (dGet (Val.dict kvs) "data") with e | n
        · rw [hl] at h; exact absurd h (by simp)
        · rw [hl] at h
          simp only [Except.ok.injEq] at h; subst h
          exact ⟨rfl, hasKey_of_truthy_dGet kvs "data" hd⟩
      · have hd2 : truthy (dGet (Val.dict kvs) "data") = false := by simpa using hd
        rw [searchBody_dict_nodata noun keyword kvs hd2] at h
        simp only [Except.ok.injEq] at h; subst h
        exact ⟨rfl, rfl⟩

/-- A keyword-search route body (one upstream call, then the shared
normalization) only answers success with a dict payload holding a
`data` key. -/
theorem runSearch_shape (name noun keyword : String) (r : Except String Val)
    (h : (runHandler (M.bind (call name r) (fun result =>
            liftE (searchBody noun keyword result)))).fst.success = true) :
    isDict (runHandler (M.bind (call name r) (fun result =>
      liftE (searchBody noun keyword result)))).fst.data = true ∧
    hasKey (runHandler (M.bind (call name r) (fun result =>
      liftE (searchBody noun keyword result)))).fst.data "data" = true := by
  rcases r with e | v
  · simp [runHandler, M.bind, call, liftE, create_error_response] at h
  · rcases hb : searchBody noun keyword v with e2 | resp
    · simp [runHandler, M.bind, call, liftE, hb, create_error_response] at h
    · have hshape := searchBody_ok_shape noun keyword v resp hb
      simp [runHandler, M.bind, call, liftE, hb]
      exact hshape

/-- Counterexample to C9 as stated: the combined `/api/v1/search` route
envelopes the raw upstream payload — with a truthy list result the
success envelope's data IS the bare upstream list, not a normalized
`{data: [...]}` dict. -/
theorem search_all_raw_payload_counterexample :
    (search_all (Option.some "x") (constClient (Except.ok (Val.list [Val.int 1])))).fst.success
      = true
    ∧ (search_all (Option.some "x") (constClient (Except.ok (Val.list [Val.int 1])))).fst.data
      = Val.list [Val.int 1]
    ∧ isDict (search_all (Option.some "x")
        (constClient (Except.ok (Val.list [Val.int 1])))).fst.data = false :=
  ⟨rfl, rfl, rfl⟩

/-- Claim C9 (amended): for the four keyword-search handlers every
success envelope's data is a dict carrying a `data` key (never the bare
raw upstream list); the invariant does not extend to the
university-programs listing (whose empty branch answers a bare `[]`)
nor to the combined `/api/v1/search` route (raw passthrough). -/
theorem keyword_search_data_shape (q : Option String) (c : Client) :
    ((search_universities q c).fst.success = true →
       isDict (search_universities q c).fst.data = true ∧
       hasKey (search_universities q c).fst.data "data" = true)
    ∧ ((search_students q c).fst.success = true →
       isDict (search_students q c).fst.data = true ∧
       hasKey (search_students q c).fst.data "data" = true)
    ∧ ((search_lecturers q c).fst.success = true →
       isDict (search_lecturers q c).fst.data = true ∧
       hasKey (search_lecturers q c).fst.data "data" = true)
    ∧ ((search_programs q c).fst.success = true →
       isDict (search_programs q c).fst.data = true ∧
       hasKey (search_programs q c).fst.data "data" = true) := by
  by_cases hq : pyStrip (q.getD "") = ""
  · refine ⟨?_, ?_, ?_, ?_⟩ <;>
      (intro h
       simp [search_universities, search_students, search_lecturers, search_programs,
             hq, create_error_response] at h)
  · refine ⟨?_, ?_, ?_, ?_⟩
    · intro h
      have he : search_universities q c =
          runHandler (M.bind (call "search_pt" (c.search_pt (pyStrip (q.getD "")))) (fun result =>
            liftE (searchBody "universities" (pyStrip (q.getD "")) result))) := by
        simp [search_universities, hq]
      rw [he] at h ⊢
      exact runSearch_shape "search_pt" "universities" (pyStrip (q.getD ""))
        (c.search_pt (pyStrip (q.getD ""))) h
    · intro h
      have he : search_students q c =
          runHandler (M.bind (call "search_mahasiswa" (c.search_mahasiswa (pyStrip (q.getD "")))) (fun result =>
            liftE (searchBody "students" (pyStrip (q.getD "")) result))) := by
        simp [search_students, hq]
      rw [he] at h ⊢
      exact runSearch_shape "search_mahasiswa" "students" (pyStrip (q.getD ""))
        (c.search_mahasiswa (pyStrip (q.getD ""))) h
    · intro h
      have he : search_lecturers q c =
          runHandler (M.bind (call "search_dosen" (c.search_dosen (pyStrip (q.getD "")))) (fun result =>
            liftE (searchBody "lecturers" (pyStrip (q.getD "")) result))) := by
        simp [search_lecturers, hq]
      rw [he] at h ⊢
      exact runSearch_shape "search_dosen" "lecturers" (pyStrip (q.getD ""))
        (c.search_dosen (pyStrip (q.getD ""))) h
    · intro h
      have he : search_programs q c =
          runHandler (M.bind (call "search_prodi" (c.search_prodi (pyStrip (q.getD "")))) (fun result =>
            liftE (searchBody "programs" (pyStrip (q.getD "")) result))) := by
        simp [search_programs, hq]
      rw [he] at h ⊢
      exact runSearch_shape "search_prodi" "programs" (pyStrip (q.getD ""))
        (c.search_prodi (pyStrip (q.getD ""))) h

/-- Witness for C9 (amended): a bare upstream list is wrapped by the
universities search, so the success data is a dict with a `data` key. -/
theorem keyword_search_data_shape_witness :
    isDict (search_universities (Option.some "x")
      (constClient (Except.ok (Val.list [Val.int 1])))).fst.data = true ∧
    hasKey (search_universities (Option.some "x")
      (constClient (Except.ok (Val.list [Val.int 1])))).fst.data "data" = true :=
  (keyword_search_data_shape (Option.some "x")
    (constClient (Except.ok (Val.list [Val.int 1])))).1 rfl

/-- Claim C10: when a keyword-search upstream result is a dict whose
`data` value is truthy but unsized (its `len` raises with message `m`),
each of the four handlers answers the 500 failure envelope built from
that exception — never a success envelope. -/
theorem search_unsized_data_500 (q : String) (hq : pyStrip q ≠ "")
    (kvs : List (String × Val)) (m : String)
    (ht : truthy (dGet (Val.dict kvs) "data") = true)
    (hl : pyLen (dGet (Val.dict kvs) "data") = Except.error m) :
    search_universities (Option.some q) (constClient (Except.ok (Val.dict kvs))) =
      (create_error_response (internalServerError m) 500, ["search_pt"])
    ∧ search_students (Option.some q) (constClient (Except.ok (Val.dict kvs))) =
      (create_error_response (internalServerError m) 500, ["search_mahasiswa"])
    ∧ search_lecturers (Option.some q) (constClient (Except.ok (Val.dict kvs))) =
      (create_error_response (internalServerError m) 500, ["search_dosen"])
    ∧ search_programs (Option.some q) (constClient (Except.ok (Val.dict kvs))) =
      (create_error_response (internalServerError m) 500, ["search_prodi"]) := by
  have hb : ∀ noun : String, searchBody noun (pyStrip q) (Val.dict kvs) = Except.error m := by
    intro noun
    rw [searchBody_dict_data noun (pyStrip q) kvs ht, hl]
  refine ⟨?_, ?_, ?_, ?_⟩ <;>
    simp [search_universities, search_students, search_lecturers, search_programs,
          constClient, runHandler, M.bind, call, liftE, Option.getD, hq, hb]

/-- Witness for C10: a dict result `{"data": 5}` makes the universities
search answer 500 with the `TypeError` text. -/
theorem search_unsized_data_500_witness :
    search_universities (Option.some "x")
      (constClient (Except.ok (Val.dict [("data", Val.int 5)]))) =
      (create_error_response
        (internalServerError "object of type \x27int\x27 has no len()") 500, ["search_pt"]) :=
  (search_unsized_data_500 "x" (by decide) [("data", Val.int 5)]
    "object of type \x27int\x27 has no len()" rfl rfl).1
